import Mathlib

/-!
Verification of the Portals 4 message-transfer engine sources.

This file shallowly embeds the parts of the repository that the checked
properties depend on:

* `trunk/ib/src/ptl_move.c` — the submission-time argument checks for
  `PtlPut` / `PtlAtomic` / `PtlSwap` (the `op_info` table, `atom_type_size`,
  `check_put`, `check_atomic`, `check_swap`);
* `src/ib/ptl_recv.c` — the receive sub-FSM (`recv_packet`, `recv_req`,
  `recv_init`, `recv_drop_buf`, `process_recv_mem`);
* `src/ib/ptl_loc.h` — the byte-order helpers (`cpu_to_le*`, `cpu_to_be64`)
  and the wire-header round trip;
* `trunk/src/shmem/include/ptl_internal_orderednemesis.h` — the ordered
  NEMESIS queue enqueue (sequential semantics of `PtlInternalAtomicSwap128`
  followed by the link step);
* `branches/udp/src/mc/ppe/ni.c` — `ni_init_impl` and `ni_fini_impl`.

Machine integers are modelled as `Nat` with explicit reductions modulo
`2 ^ 64` where C unsigned overflow matters.
-/

namespace Portals

/-! ## Portals constants

Modelled from the spec: the numeric values of the `ptl_op_t`,
`ptl_datatype_t`, `ptl_ack_req_t` enumerations and the error codes come
from the public header `portals4.h`, which is not among the source files;
the enumeration order follows the designated-initializer order of the
`op_info` and `atom_type_size` tables in `trunk/ib/src/ptl_move.c` and the
spec's listing of the error-code surface. Only the order (contiguity from
`PTL_MIN` to `PTL_OP_LAST`, from `PTL_CHAR` to `PTL_DATATYPE_LAST`, from
`PTL_NO_ACK_REQ` to `PTL_OC_ACK_REQ`) is relied on by the code. -/

def PTL_MIN : Nat := 0
def PTL_MAX : Nat := 1
def PTL_SUM : Nat := 2
def PTL_PROD : Nat := 3
def PTL_LOR : Nat := 4
def PTL_LAND : Nat := 5
def PTL_BOR : Nat := 6
def PTL_BAND : Nat := 7
def PTL_LXOR : Nat := 8
def PTL_BXOR : Nat := 9
def PTL_SWAP : Nat := 10
def PTL_CSWAP : Nat := 11
def PTL_CSWAP_NE : Nat := 12
def PTL_CSWAP_LE : Nat := 13
def PTL_CSWAP_LT : Nat := 14
def PTL_CSWAP_GE : Nat := 15
def PTL_CSWAP_GT : Nat := 16
def PTL_MSWAP : Nat := 17
def PTL_OP_LAST : Nat := 18

def PTL_CHAR : Nat := 0
def PTL_UCHAR : Nat := 1
def PTL_SHORT : Nat := 2
def PTL_USHORT : Nat := 3
def PTL_INT : Nat := 4
def PTL_UINT : Nat := 5
def PTL_LONG : Nat := 6
def PTL_ULONG : Nat := 7
def PTL_FLOAT : Nat := 8
def PTL_FLOAT_COMPLEX : Nat := 9
def PTL_DOUBLE : Nat := 10
def PTL_DOUBLE_COMPLEX : Nat := 11
def PTL_DATATYPE_LAST : Nat := 12

def PTL_NO_ACK_REQ : Nat := 0
def PTL_ACK_REQ : Nat := 1
def PTL_CT_ACK_REQ : Nat := 2
def PTL_OC_ACK_REQ : Nat := 3

def PTL_OK : Nat := 0
def PTL_FAIL : Nat := 1
def PTL_ARG_INVALID : Nat := 2
def PTL_NO_SPACE : Nat := 3
def PTL_PID_IN_USE : Nat := 4

/-- Width of `ptl_size_t` (`uint64_t`); sums computed in C wrap modulo this. -/
def U64 : Nat := 2 ^ 64

/-! ## The atomic operation table (`op_info` in `trunk/ib/src/ptl_move.c`) -/

structure AtomOpInfo where
  float_ok : Bool
  complex_ok : Bool
  atomic_ok : Bool
  swap_ok : Bool
  use_operand : Bool
deriving DecidableEq, Repr

/-- The `op_info` designated-initializer table from `trunk/ib/src/ptl_move.c`
lines 7-32, indexed by `ptl_op_t`.  Entries outside the initialized range
are irrelevant: every use is guarded by `PTL_MIN <= op < PTL_OP_LAST`. -/
def op_info (op : Nat) : AtomOpInfo :=
  match op with
  | 0 => ⟨true, false, true, false, false⟩    -- PTL_MIN
  | 1 => ⟨true, false, true, false, false⟩    -- PTL_MAX
  | 2 => ⟨true, true, true, false, false⟩     -- PTL_SUM
  | 3 => ⟨true, true, true, false, false⟩     -- PTL_PROD
  | 4 => ⟨false, false, true, false, false⟩   -- PTL_LOR
  | 5 => ⟨false, false, true, false, false⟩   -- PTL_LAND
  | 6 => ⟨false, false, true, false, false⟩   -- PTL_BOR
  | 7 => ⟨false, false, true, false, false⟩   -- PTL_BAND
  | 8 => ⟨false, false, true, false, false⟩   -- PTL_LXOR
  | 9 => ⟨false, false, true, false, false⟩   -- PTL_BXOR
  | 10 => ⟨true, true, false, true, false⟩    -- PTL_SWAP
  | 11 => ⟨true, true, false, true, true⟩     -- PTL_CSWAP
  | 12 => ⟨true, true, false, true, true⟩     -- PTL_CSWAP_NE
  | 13 => ⟨true, false, false, true, true⟩    -- PTL_CSWAP_LE
  | 14 => ⟨true, false, false, true, true⟩    -- PTL_CSWAP_LT
  | 15 => ⟨true, false, false, true, true⟩    -- PTL_CSWAP_GE
  | 16 => ⟨true, false, false, true, true⟩    -- PTL_CSWAP_GT
  | 17 => ⟨false, false, false, true, true⟩   -- PTL_MSWAP
  | _ => ⟨false, false, false, false, false⟩

/-- The `atom_type_size` table from `trunk/ib/src/ptl_move.c` lines 34-48,
indexed by `ptl_datatype_t`. -/
def atom_type_size (ty : Nat) : Nat :=
  match ty with
  | 0 => 1    -- PTL_CHAR
  | 1 => 1    -- PTL_UCHAR
  | 2 => 2    -- PTL_SHORT
  | 3 => 2    -- PTL_USHORT
  | 4 => 4    -- PTL_INT
  | 5 => 4    -- PTL_UINT
  | 6 => 8    -- PTL_LONG
  | 7 => 8    -- PTL_ULONG
  | 8 => 4    -- PTL_FLOAT
  | 9 => 8    -- PTL_FLOAT_COMPLEX
  | 10 => 8   -- PTL_DOUBLE
  | 11 => 16  -- PTL_DOUBLE_COMPLEX
  | _ => 0

/-! ## Memory descriptors, NI limits and the submission checks -/

/-- The fields of `md_t` consulted by the submission checks: the length and
whether the optional EQ / CT handles are attached. -/
structure MD where
  length : Nat
  has_eq : Bool
  has_ct : Bool
deriving DecidableEq, Repr

/-- The fields of `ni_t.limits` consulted by the submission checks. -/
structure NILimits where
  max_msg_size : Nat
  max_atomic_size : Nat
deriving DecidableEq, Repr

/-- The `check_put` validation from `trunk/ib/src/ptl_move.c` lines 83-117,
for a resolved (non-NULL) MD.  `local_offset + length` is a `ptl_size_t`
(`uint64_t`) sum and wraps modulo `2 ^ 64`, exactly as in C. -/
def check_put (md : MD) (local_offset length ack_req : Nat)
    (limits : NILimits) : Nat :=
  if (local_offset + length) % U64 > md.length then PTL_ARG_INVALID
  else if ack_req > PTL_OC_ACK_REQ then PTL_ARG_INVALID
  else if ack_req = PTL_ACK_REQ ∧ ¬md.has_eq then PTL_ARG_INVALID
  else if ack_req = PTL_CT_ACK_REQ ∧ ¬md.has_ct then PTL_ARG_INVALID
  else if length > limits.max_msg_size then PTL_ARG_INVALID
  else PTL_OK

/-- The `check_atomic` validation from `trunk/ib/src/ptl_move.c` lines
434-498, for a resolved (non-NULL) MD, with the checks in source order. -/
def check_atomic (md : MD) (local_offset length : Nat) (limits : NILimits)
    (ack_req atom_op atom_type : Nat) : Nat :=
  if (local_offset + length) % U64 > md.length then PTL_ARG_INVALID
  else if length > limits.max_atomic_size then PTL_ARG_INVALID
  else if ack_req > PTL_OC_ACK_REQ then PTL_ARG_INVALID
  else if ack_req = PTL_ACK_REQ ∧ ¬md.has_eq then PTL_ARG_INVALID
  else if ack_req = PTL_CT_ACK_REQ ∧ ¬md.has_ct then PTL_ARG_INVALID
  else if atom_op ≥ PTL_OP_LAST then PTL_ARG_INVALID
  else if ¬(op_info atom_op).atomic_ok then PTL_ARG_INVALID
  else if atom_type ≥ PTL_DATATYPE_LAST then PTL_ARG_INVALID
  else if (atom_type = PTL_FLOAT ∨ atom_type = PTL_DOUBLE) ∧
          ¬(op_info atom_op).float_ok then PTL_ARG_INVALID
  else if (atom_type = PTL_FLOAT_COMPLEX ∨ atom_type = PTL_DOUBLE_COMPLEX) ∧
          ¬(op_info atom_op).complex_ok then PTL_ARG_INVALID
  else PTL_OK

/-- The `check_swap` validation from `trunk/ib/src/ptl_move.c` lines
861-916, for a resolved (non-NULL) MD, with the checks in source order. -/
def check_swap (md : MD) (local_offset length : Nat) (limits : NILimits)
    (atom_op atom_type : Nat) : Nat :=
  if (local_offset + length) % U64 > md.length then PTL_ARG_INVALID
  else if length > limits.max_atomic_size then PTL_ARG_INVALID
  else if atom_op ≥ PTL_OP_LAST then PTL_ARG_INVALID
  else if ¬(op_info atom_op).swap_ok then PTL_ARG_INVALID
  else if atom_type ≥ PTL_DATATYPE_LAST then PTL_ARG_INVALID
  else if (atom_type = PTL_FLOAT ∨ atom_type = PTL_DOUBLE) ∧
          ¬(op_info atom_op).float_ok then PTL_ARG_INVALID
  else if (atom_type = PTL_FLOAT_COMPLEX ∨ atom_type = PTL_DOUBLE_COMPLEX) ∧
          ¬(op_info atom_op).complex_ok then PTL_ARG_INVALID
  else if (op_info atom_op).use_operand ∧ length > atom_type_size atom_type
       then PTL_ARG_INVALID
  else PTL_OK

/-! ## `PtlPut` and `PtlAtomic` submission

Each call resolves the MD handle (`md_get`; failure yields
`PTL_ARG_INVALID` before any XI exists), runs the check (the
`PTL_CHECK_BUILD` configuration), and only then allocates and launches an
XI.  The model returns the error code paired with the XI created, `none`
on every error path. -/

/-- An initiator descriptor as filled in by `PtlPut` / `PtlAtomic`
(the fields relevant to submission). -/
structure XI where
  operation : Nat
  rlength : Nat
  put_offset : Nat
  ack_req : Nat
  atom_op : Nat
  atom_type : Nat
deriving DecidableEq, Repr

/-- Wire operation code `OP_PUT` stored into the XI by `PtlPut`. -/
def OP_PUT : Nat := 0
def OP_GET : Nat := 1
def OP_ATOMIC : Nat := 2
def OP_FETCH : Nat := 3
/-- Wire operation code `OP_SWAP`; requests are the codes up to this one. -/
def OP_SWAP : Nat := 4
/-- Modelled from the spec: `OP_RDMA_DISC` sits strictly between `OP_SWAP`
and `OP_REPLY` in the (missing) `ptl_hdr.h` enumeration, so `recv_packet`
classifies it as a control packet. -/
def OP_RDMA_DISC : Nat := 5
/-- Wire operation code `OP_REPLY`; responses are the codes from this one up. -/
def OP_REPLY : Nat := 6
def OP_ACK : Nat := 7

/-- `PtlPut` from `trunk/ib/src/ptl_move.c` lines 119-186: resolve the MD
handle, validate with `check_put`, then build the XI in state
`STATE_INIT_START`.  `md?` is the object the MD handle resolves to
(`none` when `md_get` fails). -/
def PtlPut (md? : Option MD) (local_offset length ack_req : Nat)
    (limits : NILimits) : Nat × Option XI :=
  match md? with
  | none => (PTL_ARG_INVALID, none)
  | some md =>
    let err := check_put md local_offset length ack_req limits
    if err ≠ PTL_OK then (err, none)
    else (PTL_OK, some ⟨OP_PUT, length, local_offset, ack_req, 0, 0⟩)

/-- `PtlAtomic` from `trunk/ib/src/ptl_move.c` lines 500-564: resolve the
MD handle, validate with `check_atomic`, then build the XI in state
`STATE_INIT_START`. -/
def PtlAtomic (md? : Option MD) (local_offset length ack_req : Nat)
    (limits : NILimits) (atom_op atom_type : Nat) : Nat × Option XI :=
  match md? with
  | none => (PTL_ARG_INVALID, none)
  | some md =>
    let err := check_atomic md local_offset length limits ack_req atom_op atom_type
    if err ≠ PTL_OK then (err, none)
    else (PTL_OK, some ⟨OP_ATOMIC, length, local_offset, ack_req, atom_op, atom_type⟩)

/-! ## The receive sub-FSM (`src/ib/ptl_recv.c`)

`process_recv_mem` starts at `STATE_RECV_PACKET` and runs `recv_packet`,
`recv_req`, `recv_init`, `recv_drop_buf` until `REPOST`/`DONE`.  The model
records which state machine (if any) a packet is handed to and how often
`ni->num_recv_drops` is incremented.  `sizeof(req_hdr_t)` is kept as a
parameter `hdrSize`, since only the comparison against it matters. -/

/-- Wire header version constant `PTL_HDR_VER_1`. -/
def PTL_HDR_VER_1 : Nat := 1

/-- The header fields of a received buffer consulted by the receive
sub-FSM, plus the identity of the buffer object itself. -/
structure RecvBuf where
  id : Nat
  version : Nat
  operation : Nat
  length : Nat
  handle : Nat
deriving DecidableEq, Repr

/-- The receive states reachable from `STATE_RECV_PACKET` in
`process_recv_mem`. -/
inductive RecvState where
  | PACKET
  | REQ
  | INIT
  | DROP_BUF
  | REPOST
  | DONE
deriving DecidableEq, Repr

/-- Which state machine a received packet was handed to: `tgt b` means
`process_tgt` ran on buffer `b` (a new request), `initiator x` means
`process_init` ran on the outstanding initiator buffer `x` resolved from
the header handle. -/
inductive Handed where
  | tgt (bufId : Nat)
  | initiator (xiId : Nat)
deriving DecidableEq, Repr

/-- Outcome of one pass of the receive sub-FSM over one packet. -/
structure RecvOutcome where
  handed : Option Handed
  drops : Nat
deriving DecidableEq, Repr

/-- `recv_packet` from `src/ib/ptl_recv.c` lines 218-265: sanity-check the
version, then classify by the operation field.  Operations between
`OP_SWAP` and `OP_REPLY` (exclusive) are control packets; the IB build
processes the disconnect locally and the packet still goes to
`STATE_RECV_DROP_BUF`. -/
def recv_packet (hdrSize : Nat) (b : RecvBuf) : RecvState :=
  if b.version ≠ PTL_HDR_VER_1 then .DROP_BUF
  else if b.operation ≤ OP_SWAP then
    if b.length < hdrSize then .DROP_BUF else .REQ
  else if b.operation ≥ OP_REPLY then .INIT
  else .DROP_BUF

/-- `recv_req` from `src/ib/ptl_recv.c` lines 274-302: hand the buffer to
the target state machine (`process_tgt`) in `STATE_TGT_START` and go to
`REPOST`. -/
def recv_req (b : RecvBuf) : RecvState × Handed :=
  (.REPOST, .tgt b.id)

/-- `recv_init` from `src/ib/ptl_recv.c` lines 311-347: resolve the header
handle to the outstanding initiator buffer (`to_buf`); on failure go to
`DROP_BUF`, otherwise hand the resolved buffer to `process_init` and go to
`REPOST`.  `resolve` is the handle-lookup environment. -/
def recv_init (resolve : Nat → Option Nat) (b : RecvBuf) :
    RecvState × Option Handed :=
  match resolve b.handle with
  | none => (.DROP_BUF, none)
  | some xi => (.REPOST, some (.initiator xi))

/-- `process_recv_mem` from `src/ib/ptl_recv.c` lines 471-512, started at
`STATE_RECV_PACKET`, composed from `recv_packet`, `recv_req`, `recv_init`
and `recv_drop_buf` (which increments `ni->num_recv_drops` by one and
frees the buffer). -/
def process_recv_mem (hdrSize : Nat) (resolve : Nat → Option Nat)
    (b : RecvBuf) : RecvOutcome :=
  match recv_packet hdrSize b with
  | .REQ => { handed := some (recv_req b).2, drops := 0 }
  | .INIT =>
    match recv_init resolve b with
    | (.DROP_BUF, _) => { handed := none, drops := 1 }
    | (_, h) => { handed := h, drops := 0 }
  | .DROP_BUF => { handed := none, drops := 1 }
  | _ => { handed := none, drops := 0 }

/-! ## Byte-order helpers (`src/ib/ptl_loc.h` lines 87-106)

The build is little-endian (`__BYTE_ORDER == __LITTLE_ENDIAN`; the other
branch is `#error`), so `htons`/`htonl` are byte swaps and the
`cpu_to_le*` family is the identity. -/

/-- `htons` on a little-endian host: 16-bit byte swap. -/
def htons (x : Nat) : Nat :=
  (x % 256) * 256 + (x / 256 % 256)

/-- `htonl` on a little-endian host: 32-bit byte swap. -/
def htonl (x : Nat) : Nat :=
  (x % 256) * 2 ^ 24 + (x / 2 ^ 8 % 256) * 2 ^ 16 +
  (x / 2 ^ 16 % 256) * 2 ^ 8 + (x / 2 ^ 24 % 256)

def cpu_to_be16 (x : Nat) : Nat := htons x
def be16_to_cpu (x : Nat) : Nat := htons x
def cpu_to_be32 (x : Nat) : Nat := htonl x
def be32_to_cpu (x : Nat) : Nat := htonl x

/-- `cpu_to_be64` from `ptl_loc.h` lines 91-94:
`uint64_t y = htonl((uint32_t)x); return (y << 32) | htonl((uint32_t)(x >> 32));`
The two halves occupy disjoint bit ranges, so `|` is `+`. -/
def cpu_to_be64 (x : Nat) : Nat :=
  htonl (x % 2 ^ 32) * 2 ^ 32 + htonl (x / 2 ^ 32 % 2 ^ 32)

/-- `be64_to_cpu` is defined in the source as `cpu_to_be64`. -/
def be64_to_cpu (x : Nat) : Nat := cpu_to_be64 x

def cpu_to_le16 (x : Nat) : Nat := x
def le16_to_cpu (x : Nat) : Nat := x
def cpu_to_le32 (x : Nat) : Nat := x
def le32_to_cpu (x : Nat) : Nat := x
def cpu_to_le64 (x : Nat) : Nat := x
def le64_to_cpu (x : Nat) : Nat := x

/-- The wire header fields (spec section 6): single-byte fields are stored
directly, 32-bit fields through `cpu_to_le32`, 64-bit fields through
`cpu_to_le64`. -/
structure WireHdr where
  version : Nat
  operation : Nat
  ni_type : Nat
  pkt_fmt : Nat
  flags : Nat
  hdr_handle : Nat
  src_nid : Nat
  src_pid : Nat
  length : Nat
  pt_index : Nat
  match_bits : Nat
  remote_offset : Nat
  hdr_data : Nat
  atom_op : Nat
  atom_type : Nat
  ack_req : Nat
deriving DecidableEq, Repr

/-- A header is legal when every field fits its wire width. -/
def legalHdr (h : WireHdr) : Prop :=
  h.version < 2 ^ 8 ∧ h.operation < 2 ^ 8 ∧ h.ni_type < 2 ^ 8 ∧
  h.pkt_fmt < 2 ^ 8 ∧ h.flags < 2 ^ 8 ∧ h.hdr_handle < 2 ^ 32 ∧
  h.src_nid < 2 ^ 32 ∧ h.src_pid < 2 ^ 32 ∧ h.length < 2 ^ 64 ∧
  h.pt_index < 2 ^ 32 ∧ h.match_bits < 2 ^ 64 ∧ h.remote_offset < 2 ^ 64 ∧
  h.hdr_data < 2 ^ 64 ∧ h.atom_op < 2 ^ 8 ∧ h.atom_type < 2 ^ 8 ∧
  h.ack_req < 2 ^ 8

instance (h : WireHdr) : Decidable (legalHdr h) := by
  unfold legalHdr; infer_instance

/-- Encode a header for the wire: field-wise `cpu_to_le*` as done when the
source fills a `req_hdr_t` (e.g. `trunk/src/ib/ptl_conn.c` line 219 and
following). -/
def encodeHdr (h : WireHdr) : WireHdr :=
  { version := h.version, operation := h.operation, ni_type := h.ni_type,
    pkt_fmt := h.pkt_fmt, flags := h.flags,
    hdr_handle := cpu_to_le32 h.hdr_handle,
    src_nid := cpu_to_le32 h.src_nid, src_pid := cpu_to_le32 h.src_pid,
    length := cpu_to_le64 h.length, pt_index := cpu_to_le32 h.pt_index,
    match_bits := cpu_to_le64 h.match_bits,
    remote_offset := cpu_to_le64 h.remote_offset,
    hdr_data := cpu_to_le64 h.hdr_data, atom_op := h.atom_op,
    atom_type := h.atom_type, ack_req := h.ack_req }

/-- Decode a wire header: field-wise `le*_to_cpu`. -/
def decodeHdr (h : WireHdr) : WireHdr :=
  { version := h.version, operation := h.operation, ni_type := h.ni_type,
    pkt_fmt := h.pkt_fmt, flags := h.flags,
    hdr_handle := le32_to_cpu h.hdr_handle,
    src_nid := le32_to_cpu h.src_nid, src_pid := le32_to_cpu h.src_pid,
    length := le64_to_cpu h.length, pt_index := le32_to_cpu h.pt_index,
    match_bits := le64_to_cpu h.match_bits,
    remote_offset := le64_to_cpu h.remote_offset,
    hdr_data := le64_to_cpu h.hdr_data, atom_op := h.atom_op,
    atom_type := h.atom_type, ack_req := h.ack_req }

/-! ## The ordered NEMESIS queue
(`trunk/src/shmem/include/ptl_internal_orderednemesis.h`)

The model gives the sequential semantics of one enqueue: entries are the
list of linked queue entries from head to tail, each carrying its 64-bit
sequence value; `tailval` is `q->tail.val`.  A 128-bit tail pair
`(ptr, val)` is modelled as `Option Nat × Nat` (`none` for a NULL
pointer). -/

/-- Sequential semantics of `PtlInternalAtomicSwap128` (header lines
70-88) at the tail pair: if the stored `val` exceeds the incoming `val`
the swap is refused and the store is unchanged; otherwise the new pair is
stored.  Either way the previous pair is returned.  Returns
(new stored pair, returned previous pair). -/
def PtlInternalAtomicSwap128 (stored newval : Option Nat × Nat) :
    (Option Nat × Nat) × (Option Nat × Nat) :=
  if stored.2 > newval.2 then (stored, stored)
  else (newval, stored)

/-- The ordered NEMESIS queue state: the linked entries from head to tail
(entry identity paired with its sequence value) and the tail pair's `val`
word.  Sequentially, `tail.ptr` is NULL exactly when `elems` is empty, so
the pointer half is represented by `elems.getLast?`. -/
structure ONQueue where
  elems : List (Nat × Nat)
  tailval : Nat
deriving DecidableEq, Repr

/-- `PtlInternalOrderedNEMESISEnqueue` (header lines 98-119): swap the
tail pair with the new entry `(e, v)`; if the previous `val` is greater
than `v` the swap did not happen and the function returns 0; otherwise the
entry is linked (published into `head` when the previous tail pointer was
NULL, i.e. `elems = []`, else into `prev.ptr->next` — both are an append)
and the function returns 1. -/
def PtlInternalOrderedNEMESISEnqueue (q : ONQueue) (e v : Nat) :
    ONQueue × Nat :=
  let f : Option Nat × Nat := (some e, v)
  let tail : Option Nat × Nat := ((q.elems.getLast?).map Prod.fst, q.tailval)
  let swapped := PtlInternalAtomicSwap128 tail f
  let prev := swapped.2
  if prev.2 > v then (q, 0)
  else ({ elems := q.elems ++ [(e, v)], tailval := v }, 1)

/-- Fold a sequence of enqueues over a queue (discarding return codes). -/
def onqEnqueueAll (q : ONQueue) (es : List (Nat × Nat)) : ONQueue :=
  es.foldl (fun q ev => (PtlInternalOrderedNEMESISEnqueue q ev.1 ev.2).1) q

/-! ## PPE `ni_init_impl` / `ni_fini_impl` (`branches/udp/src/mc/ppe/ni.c`) -/

/-- The context fields of `ptl_ppe_t` consulted by `ni_init_impl`:
`pids[i] = none` models `-1` (free), `some peer` a reservation by `peer`;
`pidMax` is `PTL_PID_MAX`. -/
structure PpeCtx where
  pids : Nat → Option Nat
  pidMax : Nat

/-- The per-client state: `pid = none` models `client->pid == -1`. -/
structure PpeClient where
  pid : Option Nat
deriving DecidableEq, Repr

/-- The command fields consulted by the pid-reservation logic:
`pid = none` models `PTL_PID_ANY`. -/
structure NiInitCmd where
  pid : Option Nat
deriving DecidableEq, Repr

/-- Environment outcomes of the two `ppe_xpmem_attach` calls. -/
structure NiInitEnv where
  attachLimitsOk : Bool
  attachClientOk : Bool
deriving DecidableEq, Repr

/-- The result of `ni_init_impl`: the error code computed into the local
`ret` on a `goto cleanup` path (`none` when the function reaches the
success path), the `retval` placed in the completion entry sent to the
client, and the client's pid afterwards. -/
structure NiInitResult where
  computedRet : Option Nat
  ackRetval : Nat
  clientPid : Option Nat
deriving DecidableEq, Repr

/-- The first free slot in `ctx->pids` below `PTL_PID_MAX` (the search
loop at `ni.c` lines 31-37). -/
def findFreePid (ctx : PpeCtx) : Option Nat :=
  (List.range ctx.pidMax).find? (fun i => (ctx.pids i).isNone)

/-- `ni_init_impl` from `branches/udp/src/mc/ppe/ni.c` lines 16-145:
pid reservation (lines 29-56), the two xpmem attaches (error paths to
`cleanup`), then `send_retval`, which always stores `PTL_OK` into the
completion entry (line 136) regardless of the `ret` computed on a
`cleanup` path. -/
def ni_init_impl (ctx : PpeCtx) (client : PpeClient) (cmd : NiInitCmd)
    (env : NiInitEnv) : NiInitResult :=
  let pidStep : Option Nat × Option Nat :=
    match cmd.pid with
    | none =>
      match client.pid with
      | none =>
        match findFreePid ctx with
        | some i => (some i, none)
        | none => (none, some PTL_NO_SPACE)
      | some q => (some q, none)
    | some p =>
      match client.pid with
      | none =>
        if (ctx.pids p).isNone then (some p, none)
        else (none, some PTL_PID_IN_USE)
      | some q =>
        if p ≠ q then (some q, some PTL_ARG_INVALID)
        else (some q, none)
  match pidStep.2 with
  | some e => { computedRet := some e, ackRetval := PTL_OK, clientPid := pidStep.1 }
  | none =>
    if ¬env.attachLimitsOk then
      { computedRet := some PTL_FAIL, ackRetval := PTL_OK, clientPid := pidStep.1 }
    else if ¬env.attachClientOk then
      { computedRet := some PTL_FAIL, ackRetval := PTL_OK, clientPid := pidStep.1 }
    else
      { computedRet := none, ackRetval := PTL_OK, clientPid := pidStep.1 }

/-- The fields of `ptl_ppe_ni_t` consulted by `ni_fini_impl`: the mapped
limits structure (through `ni->limits`) and the six heap pointers, each
`none` when NULL. -/
structure PpeNI where
  limits_ptr : Option Nat
  client_ptr : Option Nat
  max_cts : Option Nat
  ppe_md : Option Nat
  ppe_me : Option Nat
  ppe_le : Option Nat
  ppe_pt : Option Nat
  ppe_eq : Option Nat
  ppe_ct : Option Nat
deriving DecidableEq, Repr

/-- `memset(ni, 0, sizeof(ptl_ppe_ni_t))`: every pointer field becomes
NULL. -/
def memsetNI : PpeNI :=
  { limits_ptr := none, client_ptr := none, max_cts := none,
    ppe_md := none, ppe_me := none, ppe_le := none,
    ppe_pt := none, ppe_eq := none, ppe_ct := none }

/-- Observable events of `ni_fini_impl`, in program order.  `readMaxCts`
records the value obtained for the loop bound `ni->limits->max_cts`
(`none` when `ni->limits` is NULL, a faulting dereference); `freePtr w v`
records `free` of the `w`-th heap pointer with the pointer value `v` read
at that moment. -/
inductive FiniEv where
  | detachLimits
  | detachClient
  | memsetZero
  | readMaxCts (v : Option Nat)
  | ctListFini (i : Nat)
  | freePtr (which : Nat) (v : Option Nat)
  | sendAck (retval : Nat)
deriving DecidableEq, Repr

/-- `ni_fini_impl` from `branches/udp/src/mc/ppe/ni.c` lines 148-196 as a
trace of its observable events: the conditional xpmem detaches (lines
167-172), the `memset` of the NI (line 173), the triggered-list teardown
loop whose bound reads `ni->limits->max_cts` from the now-zeroed NI
(lines 175-177; a NULL `ni->limits` yields no iterations and a faulting
read), the six frees of the now-zeroed pointers (lines 178-183), and the
completion entry carrying `PTL_OK` (line 187). -/
def ni_fini_impl (ni : PpeNI) : List FiniEv :=
  (if ni.limits_ptr.isSome then [FiniEv.detachLimits] else []) ++
  (if ni.client_ptr.isSome then [FiniEv.detachClient] else []) ++
  [FiniEv.memsetZero] ++
  (let ni2 := memsetNI
   [FiniEv.readMaxCts ni2.max_cts] ++
   (List.range (ni2.max_cts.getD 0)).map FiniEv.ctListFini ++
   [FiniEv.freePtr 0 ni2.ppe_md, FiniEv.freePtr 1 ni2.ppe_me,
    FiniEv.freePtr 2 ni2.ppe_le, FiniEv.freePtr 3 ni2.ppe_pt,
    FiniEv.freePtr 4 ni2.ppe_eq, FiniEv.freePtr 5 ni2.ppe_ct]) ++
  [FiniEv.sendAck PTL_OK]

/-! ## Families of atomic operations, as named by the spec's op matrix -/

/-- The SWAP/CSWAP/MSWAP family: the operations the spec's matrix marks
swap-capable and not atomic-capable. -/
def isSwapFamilyOp (op : Nat) : Prop :=
  op = PTL_SWAP ∨ op = PTL_CSWAP ∨ op = PTL_CSWAP_NE ∨ op = PTL_CSWAP_LE ∨
  op = PTL_CSWAP_LT ∨ op = PTL_CSWAP_GE ∨ op = PTL_CSWAP_GT ∨ op = PTL_MSWAP

/-- The logical/bitwise family LOR, LAND, BOR, BAND, LXOR, BXOR. -/
def isLogicalOp (op : Nat) : Prop :=
  op = PTL_LOR ∨ op = PTL_LAND ∨ op = PTL_BOR ∨ op = PTL_BAND ∨
  op = PTL_LXOR ∨ op = PTL_BXOR

/-- The operand-using family CSWAP, CSWAP_NE, CSWAP_LE, CSWAP_LT,
CSWAP_GE, CSWAP_GT, MSWAP. -/
def usesOperandOp (op : Nat) : Prop :=
  op = PTL_CSWAP ∨ op = PTL_CSWAP_NE ∨ op = PTL_CSWAP_LE ∨
  op = PTL_CSWAP_LT ∨ op = PTL_CSWAP_GE ∨ op = PTL_CSWAP_GT ∨ op = PTL_MSWAP

/-! ## Characterizations of the submission checks -/

/-- The disjunction of the `check_put` rejection conditions, in source
order. -/
def putRejected (md : MD) (lo len ack : Nat) (limits : NILimits) : Prop :=
  (lo + len) % U64 > md.length ∨ ack > PTL_OC_ACK_REQ ∨
  (ack = PTL_ACK_REQ ∧ ¬md.has_eq) ∨ (ack = PTL_CT_ACK_REQ ∧ ¬md.has_ct) ∨
  len > limits.max_msg_size

instance (md : MD) (lo len ack : Nat) (limits : NILimits) :
    Decidable (putRejected md lo len ack limits) := by
  unfold putRejected; infer_instance

lemma check_put_spec (md : MD) (lo len ack : Nat) (limits : NILimits) :
    check_put md lo len ack limits =
      if putRejected md lo len ack limits then PTL_ARG_INVALID else PTL_OK := by
  rw [check_put]
  unfold putRejected
  by_cases h1 : (lo + len) % U64 > md.length
  · rw [if_pos h1, if_pos (Or.inl h1)]
  rw [if_neg h1]
  by_cases h2 : ack > PTL_OC_ACK_REQ
  · rw [if_pos h2, if_pos (Or.inr (Or.inl h2))]
  rw [if_neg h2]
  by_cases h3 : ack = PTL_ACK_REQ ∧ ¬md.has_eq
  · rw [if_pos h3, if_pos (Or.inr (Or.inr (Or.inl h3)))]
  rw [if_neg h3]
  by_cases h4 : ack = PTL_CT_ACK_REQ ∧ ¬md.has_ct
  · rw [if_pos h4, if_pos (Or.inr (Or.inr (Or.inr (Or.inl h4))))]
  rw [if_neg h4]
  by_cases h5 : len > limits.max_msg_size
  · rw [if_pos h5, if_pos (Or.inr (Or.inr (Or.inr (Or.inr h5))))]
  rw [if_neg h5, if_neg (by tauto)]

/-- The disjunction of the `check_atomic` rejection conditions, in source
order. -/
def atomicRejected (md : MD) (lo len : Nat) (limits : NILimits)
    (ack op ty : Nat) : Prop :=
  (lo + len) % U64 > md.length ∨ len > limits.max_atomic_size ∨
  ack > PTL_OC_ACK_REQ ∨ (ack = PTL_ACK_REQ ∧ ¬md.has_eq) ∨
  (ack = PTL_CT_ACK_REQ ∧ ¬md.has_ct) ∨ op ≥ PTL_OP_LAST ∨
  ¬(op_info op).atomic_ok ∨ ty ≥ PTL_DATATYPE_LAST ∨
  ((ty = PTL_FLOAT ∨ ty = PTL_DOUBLE) ∧ ¬(op_info op).float_ok) ∨
  ((ty = PTL_FLOAT_COMPLEX ∨ ty = PTL_DOUBLE_COMPLEX) ∧
    ¬(op_info op).complex_ok)

instance (md : MD) (lo len : Nat) (limits : NILimits) (ack op ty : Nat) :
    Decidable (atomicRejected md lo len limits ack op ty) := by
  unfold atomicRejected; infer_instance

lemma check_atomic_spec (md : MD) (lo len : Nat) (limits : NILimits)
    (ack op ty : Nat) :
    check_atomic md lo len limits ack op ty =
      if atomicRejected md lo len limits ack op ty
      then PTL_ARG_INVALID else PTL_OK := by
  rw [check_atomic]
  unfold atomicRejected
  by_cases h1 : (lo + len) % U64 > md.length
  · rw [if_pos h1, if_pos (Or.inl h1)]
  rw [if_neg h1]
  by_cases h2 : len > limits.max_atomic_size
  · rw [if_pos h2, if_pos (Or.inr (Or.inl h2))]
  rw [if_neg h2]
  by_cases h3 : ack > PTL_OC_ACK_REQ
  · rw [if_pos h3, if_pos (Or.inr (Or.inr (Or.inl h3)))]
  rw [if_neg h3]
  by_cases h4 : ack = PTL_ACK_REQ ∧ ¬md.has_eq
  · rw [if_pos h4, if_pos (Or.inr (Or.inr (Or.inr (Or.inl h4))))]
  rw [if_neg h4]
  by_cases h5 : ack = PTL_CT_ACK_REQ ∧ ¬md.has_ct
  · rw [if_pos h5, if_pos (Or.inr (Or.inr (Or.inr (Or.inr (Or.inl h5)))))]
  rw [if_neg h5]
  by_cases h6 : op ≥ PTL_OP_LAST
  · rw [if_pos h6,
      if_pos (Or.inr (Or.inr (Or.inr (Or.inr (Or.inr (Or.inl h6))))))]
  rw [if_neg h6]
  by_cases h7 : ¬(op_info op).atomic_ok
  · rw [if_pos h7,
      if_pos (Or.inr (Or.inr (Or.inr (Or.inr (Or.inr (Or.inr (Or.inl h7)))))))]
  rw [if_neg h7]
  by_cases h8 : ty ≥ PTL_DATATYPE_LAST
  · rw [if_pos h8, if_pos (Or.inr (Or.inr (Or.inr (Or.inr (Or.inr (Or.inr
      (Or.inr (Or.inl h8))))))))]
  rw [if_neg h8]
  by_cases h9 : (ty = PTL_FLOAT ∨ ty = PTL_DOUBLE) ∧ ¬(op_info op).float_ok
  · rw [if_pos h9, if_pos (Or.inr (Or.inr (Or.inr (Or.inr (Or.inr (Or.inr
      (Or.inr (Or.inr (Or.inl h9)))))))))]
  rw [if_neg h9]
  by_cases h10 : (ty = PTL_FLOAT_COMPLEX ∨ ty = PTL_DOUBLE_COMPLEX) ∧
      ¬(op_info op).complex_ok
  · rw [if_pos h10, if_pos (Or.inr (Or.inr (Or.inr (Or.inr (Or.inr (Or.inr
      (Or.inr (Or.inr (Or.inr h10)))))))))]
  rw [if_neg h10, if_neg (by tauto)]

/-- The disjunction of the `check_swap` rejection conditions, in source
order. -/
def swapRejected (md : MD) (lo len : Nat) (limits : NILimits)
    (op ty : Nat) : Prop :=
  (lo + len) % U64 > md.length ∨ len > limits.max_atomic_size ∨
  op ≥ PTL_OP_LAST ∨ ¬(op_info op).swap_ok ∨ ty ≥ PTL_DATATYPE_LAST ∨
  ((ty = PTL_FLOAT ∨ ty = PTL_DOUBLE) ∧ ¬(op_info op).float_ok) ∨
  ((ty = PTL_FLOAT_COMPLEX ∨ ty = PTL_DOUBLE_COMPLEX) ∧
    ¬(op_info op).complex_ok) ∨
  ((op_info op).use_operand ∧ len > atom_type_size ty)

instance (md : MD) (lo len : Nat) (limits : NILimits) (op ty : Nat) :
    Decidable (swapRejected md lo len limits op ty) := by
  unfold swapRejected; infer_instance

lemma check_swap_spec (md : MD) (lo len : Nat) (limits : NILimits)
    (op ty : Nat) :
    check_swap md lo len limits op ty =
      if swapRejected md lo len limits op ty
      then PTL_ARG_INVALID else PTL_OK := by
  rw [check_swap]
  unfold swapRejected
  by_cases h1 : (lo + len) % U64 > md.length
  · rw [if_pos h1, if_pos (Or.inl h1)]
  rw [if_neg h1]
  by_cases h2 : len > limits.max_atomic_size
  · rw [if_pos h2, if_pos (Or.inr (Or.inl h2))]
  rw [if_neg h2]
  by_cases h3 : op ≥ PTL_OP_LAST
  · rw [if_pos h3, if_pos (Or.inr (Or.inr (Or.inl h3)))]
  rw [if_neg h3]
  by_cases h4 : ¬(op_info op).swap_ok
  · rw [if_pos h4, if_pos (Or.inr (Or.inr (Or.inr (Or.inl h4))))]
  rw [if_neg h4]
  by_cases h5 : ty ≥ PTL_DATATYPE_LAST
  · rw [if_pos h5, if_pos (Or.inr (Or.inr (Or.inr (Or.inr (Or.inl h5)))))]
  rw [if_neg h5]
  by_cases h6 : (ty = PTL_FLOAT ∨ ty = PTL_DOUBLE) ∧ ¬(op_info op).float_ok
  · rw [if_pos h6,
      if_pos (Or.inr (Or.inr (Or.inr (Or.inr (Or.inr (Or.inl h6))))))]
  rw [if_neg h6]
  by_cases h7 : (ty = PTL_FLOAT_COMPLEX ∨ ty = PTL_DOUBLE_COMPLEX) ∧
      ¬(op_info op).complex_ok
  · rw [if_pos h7,
      if_pos (Or.inr (Or.inr (Or.inr (Or.inr (Or.inr (Or.inr (Or.inl h7)))))))]
  rw [if_neg h7]
  by_cases h8 : (op_info op).use_operand ∧ len > atom_type_size ty
  · rw [if_pos h8, if_pos (Or.inr (Or.inr (Or.inr (Or.inr (Or.inr (Or.inr
      (Or.inr h8)))))))]
  rw [if_neg h8, if_neg (by tauto)]

/-- C1: for every `PtlAtomic` submission, the atom_op x atom_type validity
table is enforced at submission: whenever the operation is outside
`[PTL_MIN, PTL_OP_LAST)`, or is in the swap family (not atomic-capable),
or the type is FLOAT/DOUBLE with a logical/bitwise operation, or the type
is FLOAT_COMPLEX/DOUBLE_COMPLEX with MIN, MAX or a logical/bitwise
operation, the call returns `PTL_ARG_INVALID` and creates no XI. -/
theorem ptlAtomic_enforces_op_matrix
    (md? : Option MD) (lo len ack : Nat) (limits : NILimits) (op ty : Nat)
    (hbad : PTL_OP_LAST ≤ op ∨ isSwapFamilyOp op ∨
      ((ty = PTL_FLOAT ∨ ty = PTL_DOUBLE) ∧ isLogicalOp op) ∨
      ((ty = PTL_FLOAT_COMPLEX ∨ ty = PTL_DOUBLE_COMPLEX) ∧
        (op = PTL_MIN ∨ op = PTL_MAX ∨ isLogicalOp op))) :
    PtlAtomic md? lo len ack limits op ty = (PTL_ARG_INVALID, none) := by
  cases md? with
  | none => rfl
  | some md =>
    have hrej : atomicRejected md lo len limits ack op ty := by
      rcases hbad with hge | hsw | ⟨hty, hlog⟩ | ⟨hty, hop⟩
      · exact Or.inr (Or.inr (Or.inr (Or.inr (Or.inr (Or.inl hge)))))
      · refine Or.inr (Or.inr (Or.inr (Or.inr (Or.inr (Or.inr (Or.inl ?_))))))
        rcases hsw with h | h | h | h | h | h | h | h <;> subst h <;> decide
      · refine Or.inr (Or.inr (Or.inr (Or.inr (Or.inr (Or.inr (Or.inr
          (Or.inr (Or.inl ⟨hty, ?_⟩))))))))
        rcases hlog with h | h | h | h | h | h <;> subst h <;> decide
      · refine Or.inr (Or.inr (Or.inr (Or.inr (Or.inr (Or.inr (Or.inr
          (Or.inr (Or.inr ⟨hty, ?_⟩))))))))
        rcases hop with h | h | h | h | h | h | h | h <;> subst h <;> decide
    have hchk := check_atomic_spec md lo len limits ack op ty
    rw [if_pos hrej] at hchk
    simp only [PtlAtomic]
    rw [hchk]
    simp [PTL_ARG_INVALID, PTL_OK]

/-- Witness for C1: a concrete rejected submission, `PTL_SWAP` with
`PTL_INT` on a valid MD. -/
theorem ptlAtomic_enforces_op_matrix_witness :
    isSwapFamilyOp PTL_SWAP ∧
    PtlAtomic (some ⟨64, true, true⟩) 0 8 PTL_NO_ACK_REQ ⟨1024, 64⟩
      PTL_SWAP PTL_INT = (PTL_ARG_INVALID, none) :=
  ⟨Or.inl rfl,
   ptlAtomic_enforces_op_matrix (some ⟨64, true, true⟩) 0 8 PTL_NO_ACK_REQ
     ⟨1024, 64⟩ PTL_SWAP PTL_INT (Or.inr (Or.inl (Or.inl rfl)))⟩

/-- C2 counterexample: with `local_offset = 2^64 - 1` and `length = 1` the
mathematical sum `local_offset + length` exceeds the MD length (16), yet
the `uint64_t` sum in `check_put` wraps to 0, so `PtlPut` returns `PTL_OK`
and allocates an XI — refuting the claim as stated. -/
theorem ptlPut_claim_counterexample :
    2 ^ 64 - 1 + 1 > (16 : Nat) ∧
    PtlPut (some ⟨16, true, true⟩) (2 ^ 64 - 1) 1 PTL_NO_ACK_REQ
      ⟨2 ^ 31, 2 ^ 31⟩ =
      (PTL_OK, some ⟨OP_PUT, 1, 2 ^ 64 - 1, PTL_NO_ACK_REQ, 0, 0⟩) := by
  constructor
  · decide
  · rfl

/-- C2 amended: for a valid MD handle and an `ack_req` in the
`ptl_ack_req_t` enumeration, `PtlPut` returns `PTL_ARG_INVALID` with no XI
exactly when `ack_req = ACK` with no EQ, or `ack_req = CT_ACK` with no CT,
or `length > max_msg_size`, or the `uint64_t` sum
`(local_offset + length) mod 2^64` exceeds the MD length; otherwise it
returns `PTL_OK` with a fresh XI. -/
theorem ptlPut_submission_checks (md : MD) (lo len ack : Nat)
    (limits : NILimits) (hack : ack ≤ PTL_OC_ACK_REQ) :
    PtlPut (some md) lo len ack limits =
      if (ack = PTL_ACK_REQ ∧ ¬md.has_eq) ∨ (ack = PTL_CT_ACK_REQ ∧ ¬md.has_ct) ∨
         len > limits.max_msg_size ∨ (lo + len) % U64 > md.length
      then (PTL_ARG_INVALID, none)
      else (PTL_OK, some ⟨OP_PUT, len, lo, ack, 0, 0⟩) := by
  have hnack : ¬(ack > PTL_OC_ACK_REQ) := Nat.not_lt.mpr hack
  by_cases h : (ack = PTL_ACK_REQ ∧ ¬md.has_eq) ∨ (ack = PTL_CT_ACK_REQ ∧ ¬md.has_ct) ∨
      len > limits.max_msg_size ∨ (lo + len) % U64 > md.length
  · have hrej : putRejected md lo len ack limits := by unfold putRejected; tauto
    simp only [PtlPut]
    rw [check_put_spec, if_pos hrej, if_pos h,
      if_pos (show PTL_ARG_INVALID ≠ PTL_OK by decide)]
  · have hrej : ¬putRejected md lo len ack limits := by unfold putRejected; tauto
    simp only [PtlPut]
    rw [check_put_spec, if_neg hrej, if_neg h,
      if_neg (show ¬(PTL_OK ≠ PTL_OK) by decide)]

/-- Witness for C2's amended theorem: a concrete in-bounds `PtlPut` with
`ack_req = PTL_ACK_REQ` on an MD carrying an EQ succeeds. -/
theorem ptlPut_submission_checks_witness :
    PTL_ACK_REQ ≤ PTL_OC_ACK_REQ ∧
    PtlPut (some ⟨64, true, true⟩) 0 16 PTL_ACK_REQ ⟨1024, 64⟩ =
      (PTL_OK, some ⟨OP_PUT, 16, 0, PTL_ACK_REQ, 0, 0⟩) := by
  constructor
  · decide
  · rw [ptlPut_submission_checks ⟨64, true, true⟩ 0 16 PTL_ACK_REQ ⟨1024, 64⟩
      (by decide)]
    decide

/-- C3: every `PtlSwap` submission whose operation uses an operand is
rejected with `PTL_ARG_INVALID` by `check_swap` when `length` exceeds
`sizeof(atom_type)`, and a submission with `length` at most
`sizeof(atom_type)` passes this operand-length check (so `check_swap`
accepts it when every other check passes). -/
theorem check_swap_operand_length (md : MD) (lo len : Nat)
    (limits : NILimits) (op ty : Nat) :
    (usesOperandOp op → ty < PTL_DATATYPE_LAST → len > atom_type_size ty →
      check_swap md lo len limits op ty = PTL_ARG_INVALID) ∧
    (len ≤ atom_type_size ty →
      (lo + len) % U64 ≤ md.length → len ≤ limits.max_atomic_size →
      op < PTL_OP_LAST → (op_info op).swap_ok = true → ty < PTL_DATATYPE_LAST →
      ((ty = PTL_FLOAT ∨ ty = PTL_DOUBLE) → (op_info op).float_ok = true) →
      ((ty = PTL_FLOAT_COMPLEX ∨ ty = PTL_DOUBLE_COMPLEX) →
        (op_info op).complex_ok = true) →
      check_swap md lo len limits op ty = PTL_OK) := by
  constructor
  · intro hop _hty hlen
    have hrej : swapRejected md lo len limits op ty := by
      refine Or.inr (Or.inr (Or.inr (Or.inr (Or.inr (Or.inr (Or.inr
        ⟨?_, hlen⟩))))))
      rcases hop with h | h | h | h | h | h | h <;> subst h <;> decide
    rw [check_swap_spec, if_pos hrej]
  · intro hlen hsum hmax hop hswap hty hfl hcx
    have hnot : ¬swapRejected md lo len limits op ty := by
      rintro (h | h | h | h | h | ⟨hh, hf⟩ | ⟨hh, hc⟩ | ⟨_, hgt⟩)
      · exact absurd h (Nat.not_lt.mpr hsum)
      · exact absurd h (Nat.not_lt.mpr hmax)
      · omega
      · exact h hswap
      · omega
      · exact hf (hfl hh)
      · exact hc (hcx hh)
      · omega
    rw [check_swap_spec, if_neg hnot]

/-- Witness for C3: `PTL_MSWAP` with `PTL_INT` and `length = 8 > 4` is
rejected, while the same submission with `length = 4` passes the check. -/
theorem check_swap_operand_length_witness :
    usesOperandOp PTL_MSWAP ∧
    check_swap ⟨64, true, true⟩ 0 8 ⟨1024, 64⟩ PTL_MSWAP PTL_INT =
      PTL_ARG_INVALID ∧
    check_swap ⟨64, true, true⟩ 0 4 ⟨1024, 64⟩ PTL_MSWAP PTL_INT = PTL_OK :=
  ⟨Or.inr (Or.inr (Or.inr (Or.inr (Or.inr (Or.inr rfl))))),
   (check_swap_operand_length ⟨64, true, true⟩ 0 8 ⟨1024, 64⟩ PTL_MSWAP
      PTL_INT).1 (Or.inr (Or.inr (Or.inr (Or.inr (Or.inr (Or.inr rfl))))))
      (by decide) (by decide),
   (check_swap_operand_length ⟨64, true, true⟩ 0 4 ⟨1024, 64⟩ PTL_MSWAP
      PTL_INT).2 (by decide) (by decide) (by decide) (by decide) (by decide)
      (by decide) (by decide) (by decide)⟩

/-! ## The ordered NEMESIS enqueue: rejection, append, monotonicity -/

lemma onq_step_tailval_mono (q : ONQueue) (e v : Nat) :
    q.tailval ≤ (PtlInternalOrderedNEMESISEnqueue q e v).1.tailval := by
  unfold PtlInternalOrderedNEMESISEnqueue PtlInternalAtomicSwap128
  by_cases h : v < q.tailval
  · simp [h]
  · simp [h]
    omega

lemma onqEnqueueAll_cons (q : ONQueue) (hd : Nat × Nat)
    (tl : List (Nat × Nat)) :
    onqEnqueueAll q (hd :: tl) =
      onqEnqueueAll (PtlInternalOrderedNEMESISEnqueue q hd.1 hd.2).1 tl := by
  unfold onqEnqueueAll
  rfl

/-- C4: enqueueing `(e, v)` into an ordered NEMESIS queue whose tail
sequence value exceeds `v` returns 0 and leaves the queue unchanged;
otherwise the entry is appended and 1 is returned.  Consequently the tail
sequence value never decreases across any sequence of enqueues. -/
theorem orderedEnqueue_monotonic (q : ONQueue) (e v : Nat)
    (es : List (Nat × Nat)) :
    (q.tailval > v → PtlInternalOrderedNEMESISEnqueue q e v = (q, 0)) ∧
    (q.tailval ≤ v → PtlInternalOrderedNEMESISEnqueue q e v =
      ({ elems := q.elems ++ [(e, v)], tailval := v }, 1)) ∧
    q.tailval ≤ (onqEnqueueAll q es).tailval := by
  refine ⟨?_, ?_, ?_⟩
  · intro h
    unfold PtlInternalOrderedNEMESISEnqueue PtlInternalAtomicSwap128
    simp [h]
  · intro h
    unfold PtlInternalOrderedNEMESISEnqueue PtlInternalAtomicSwap128
    simp [Nat.not_lt.mpr h]
  · induction es generalizing q with
    | nil => simp [onqEnqueueAll]
    | cons hd tl ih =>
      rw [onqEnqueueAll_cons]
      exact le_trans (onq_step_tailval_mono q hd.1 hd.2)
        (ih (PtlInternalOrderedNEMESISEnqueue q hd.1 hd.2).1)

/-- Witness for C4: on an empty queue an enqueue with value 5 appends and
returns 1; a later enqueue with smaller value 3 is rejected with 0; the
tail value never decreases along a concrete enqueue sequence. -/
theorem orderedEnqueue_monotonic_witness :
    PtlInternalOrderedNEMESISEnqueue ⟨[], 0⟩ 1 5 = (⟨[(1, 5)], 5⟩, 1) ∧
    PtlInternalOrderedNEMESISEnqueue ⟨[(1, 5)], 5⟩ 2 3 = (⟨[(1, 5)], 5⟩, 0) ∧
    (⟨[], 0⟩ : ONQueue).tailval ≤
      (onqEnqueueAll ⟨[], 0⟩ [(1, 5), (2, 3), (3, 7)]).tailval :=
  ⟨(orderedEnqueue_monotonic ⟨[], 0⟩ 1 5 []).2.1 (by decide),
   (orderedEnqueue_monotonic ⟨[(1, 5)], 5⟩ 2 3 []).1 (by decide),
   (orderedEnqueue_monotonic ⟨[], 0⟩ 1 5 [(1, 5), (2, 3), (3, 7)]).2.2⟩

/-! ## Receive sub-FSM classification and drop behaviour -/

/-- C5: a received packet with a version-1 header is classified by its
operation field: a request operation (at most `OP_SWAP`, with a full
request header) goes to `REQ` and is handed to the target state machine
on this buffer; a response operation (at least `OP_REPLY`) goes to `INIT`
and is handed to the initiator state machine for the buffer the header
handle resolves to; anything in between is a control packet consumed
locally, reaching neither state machine. -/
theorem recv_classifies_by_operation (hdrSize : Nat)
    (resolve : Nat → Option Nat) (b : RecvBuf)
    (hver : b.version = PTL_HDR_VER_1) :
    (b.operation ≤ OP_SWAP → hdrSize ≤ b.length →
      process_recv_mem hdrSize resolve b =
        { handed := some (Handed.tgt b.id), drops := 0 }) ∧
    (∀ xi, OP_REPLY ≤ b.operation → resolve b.handle = some xi →
      process_recv_mem hdrSize resolve b =
        { handed := some (Handed.initiator xi), drops := 0 }) ∧
    (OP_SWAP < b.operation → b.operation < OP_REPLY →
      process_recv_mem hdrSize resolve b = { handed := none, drops := 1 }) := by
  refine ⟨?_, ?_, ?_⟩
  · intro hop hlen
    unfold process_recv_mem recv_packet recv_req
    rw [if_neg (by rw [hver]; exact fun h => h rfl), if_pos hop,
      if_neg (Nat.not_lt.mpr hlen)]
  · intro xi hop hres
    have hnreq : ¬b.operation ≤ OP_SWAP := by
      unfold OP_SWAP OP_REPLY at *
      omega
    unfold process_recv_mem recv_packet recv_init
    rw [if_neg (by rw [hver]; exact fun h => h rfl), if_neg hnreq,
      if_pos hop, hres]
  · intro h1 h2
    unfold process_recv_mem recv_packet
    rw [if_neg (by rw [hver]; exact fun h => h rfl),
      if_neg (Nat.not_le.mpr h1), if_neg (Nat.not_le.mpr h2)]

/-- Witness for C5: a version-1 PUT request with a full header is handed
to the target machine; a version-1 ACK response whose handle resolves is
handed to the initiator machine; a version-1 control packet (operation
between SWAP and REPLY) reaches neither and is dropped. -/
theorem recv_classifies_by_operation_witness :
    process_recv_mem 64 (fun h => if h = 9 then some 42 else none)
      ⟨7, 1, OP_PUT, 64, 9⟩ = { handed := some (Handed.tgt 7), drops := 0 } ∧
    process_recv_mem 64 (fun h => if h = 9 then some 42 else none)
      ⟨7, 1, OP_ACK, 24, 9⟩ =
      { handed := some (Handed.initiator 42), drops := 0 } ∧
    process_recv_mem 64 (fun h => if h = 9 then some 42 else none)
      ⟨7, 1, OP_RDMA_DISC, 24, 9⟩ = { handed := none, drops := 1 } :=
  ⟨(recv_classifies_by_operation 64 _ _ rfl).1 (by decide) (by decide),
   (recv_classifies_by_operation 64 _ _ rfl).2.1 42 (by decide) (by decide),
   (recv_classifies_by_operation 64 _ _ rfl).2.2 (by decide) (by decide)⟩

/-- C6: a packet whose header version is not 1, and a request packet
shorter than the request header, are silently dropped: no state machine
is invoked and `num_recv_drops` is incremented by exactly one. -/
theorem recv_drops_bad_version_or_truncated (hdrSize : Nat)
    (resolve : Nat → Option Nat) (b : RecvBuf) :
    (b.version ≠ PTL_HDR_VER_1 →
      process_recv_mem hdrSize resolve b = { handed := none, drops := 1 }) ∧
    (b.version = PTL_HDR_VER_1 → b.operation ≤ OP_SWAP →
      b.length < hdrSize →
      process_recv_mem hdrSize resolve b = { handed := none, drops := 1 }) := by
  constructor
  · intro hver
    unfold process_recv_mem recv_packet
    rw [if_pos hver]
  · intro hver hop hlen
    unfold process_recv_mem recv_packet
    rw [if_neg (by rw [hver]; exact fun h => h rfl), if_pos hop, if_pos hlen]

/-- Witness for C6: a version-2 packet and a truncated version-1 request
are both dropped with one drop-count increment and no machine invoked. -/
theorem recv_drops_bad_version_or_truncated_witness :
    process_recv_mem 64 (fun _ => none) ⟨7, 2, OP_PUT, 64, 9⟩ =
      { handed := none, drops := 1 } ∧
    process_recv_mem 64 (fun _ => none) ⟨7, 1, OP_PUT, 24, 9⟩ =
      { handed := none, drops := 1 } :=
  ⟨(recv_drops_bad_version_or_truncated 64 _ _).1 (by decide),
   (recv_drops_bad_version_or_truncated 64 _ _).2 rfl (by decide) (by decide)⟩

/-- C10: a received response packet (operation at least `OP_REPLY`) whose
header handle does not resolve to a live buffer takes the `DROP_BUF` path
out of `recv_init`, increments the receive-drop counter once, and never
invokes the initiator state machine. -/
theorem recv_init_unresolved_handle_drops (hdrSize : Nat)
    (resolve : Nat → Option Nat) (b : RecvBuf)
    (hver : b.version = PTL_HDR_VER_1) (hop : OP_REPLY ≤ b.operation)
    (hres : resolve b.handle = none) :
    recv_init resolve b = (RecvState.DROP_BUF, none) ∧
    process_recv_mem hdrSize resolve b = { handed := none, drops := 1 } := by
  have hnreq : ¬b.operation ≤ OP_SWAP := by
    unfold OP_SWAP OP_REPLY at *
    omega
  constructor
  · unfold recv_init
    rw [hres]
  · unfold process_recv_mem recv_packet recv_init
    rw [if_neg (by rw [hver]; exact fun h => h rfl), if_neg hnreq,
      if_pos hop, hres]

/-- Witness for C10: a version-1 REPLY packet whose handle resolves to no
buffer is dropped. -/
theorem recv_init_unresolved_handle_drops_witness :
    recv_init (fun _ => none) ⟨7, 1, OP_REPLY, 64, 9⟩ =
      (RecvState.DROP_BUF, none) ∧
    process_recv_mem 64 (fun _ => none) ⟨7, 1, OP_REPLY, 64, 9⟩ =
      { handed := none, drops := 1 } :=
  recv_init_unresolved_handle_drops 64 (fun _ => none) ⟨7, 1, OP_REPLY, 64, 9⟩
    rfl (by decide) rfl

/-! ## Wire-encoding round trips -/

lemma htons_involution (x : Nat) (h : x < 2 ^ 16) : htons (htons x) = x := by
  unfold htons
  have e1 : (x % 256 * 256 + x / 256 % 256) % 256 = x / 256 % 256 := by omega
  have e2 : (x % 256 * 256 + x / 256 % 256) / 256 = x % 256 := by omega
  omega

lemma htonl_bytes (a b c d : Nat) (ha : a < 256) (hb : b < 256)
    (hc : c < 256) (hd : d < 256) :
    htonl (a * 2 ^ 24 + b * 2 ^ 16 + c * 2 ^ 8 + d) =
      d * 2 ^ 24 + c * 2 ^ 16 + b * 2 ^ 8 + a := by
  unfold htonl
  have e1 : (a * 2 ^ 24 + b * 2 ^ 16 + c * 2 ^ 8 + d) % 256 = d := by omega
  have e2 : (a * 2 ^ 24 + b * 2 ^ 16 + c * 2 ^ 8 + d) / 2 ^ 8 % 256 = c := by
    omega
  have e3 : (a * 2 ^ 24 + b * 2 ^ 16 + c * 2 ^ 8 + d) / 2 ^ 16 % 256 = b := by
    omega
  have e4 : (a * 2 ^ 24 + b * 2 ^ 16 + c * 2 ^ 8 + d) / 2 ^ 24 % 256 = a := by
    omega
  rw [e1, e2, e3, e4]

lemma htonl_involution (x : Nat) (h : x < 2 ^ 32) : htonl (htonl x) = x := by
  calc htonl (htonl x)
      = htonl (x % 256 * 2 ^ 24 + x / 2 ^ 8 % 256 * 2 ^ 16 +
          x / 2 ^ 16 % 256 * 2 ^ 8 + x / 2 ^ 24 % 256) := rfl
    _ = x / 2 ^ 24 % 256 * 2 ^ 24 + x / 2 ^ 16 % 256 * 2 ^ 16 +
          x / 2 ^ 8 % 256 * 2 ^ 8 + x % 256 :=
        htonl_bytes _ _ _ _ (by omega) (by omega) (by omega) (by omega)
    _ = x := by omega

lemma htonl_lt (x : Nat) : htonl x < 2 ^ 32 := by
  unfold htonl
  omega

lemma be64_roundtrip (x : Nat) (h : x < 2 ^ 64) :
    be64_to_cpu (cpu_to_be64 x) = x := by
  unfold be64_to_cpu cpu_to_be64
  have h1 : htonl (x % 2 ^ 32) < 2 ^ 32 := htonl_lt _
  have h2 : htonl (x / 2 ^ 32 % 2 ^ 32) < 2 ^ 32 := htonl_lt _
  have hmod : (htonl (x % 2 ^ 32) * 2 ^ 32 + htonl (x / 2 ^ 32 % 2 ^ 32)) %
      2 ^ 32 = htonl (x / 2 ^ 32 % 2 ^ 32) := by omega
  have hdiv : (htonl (x % 2 ^ 32) * 2 ^ 32 + htonl (x / 2 ^ 32 % 2 ^ 32)) /
      2 ^ 32 % 2 ^ 32 = htonl (x % 2 ^ 32) := by omega
  rw [hmod, hdiv, htonl_involution _ (by omega), htonl_involution _ (by omega)]
  omega

/-- C7: wire encoding round-trips: the `cpu_to_le*`/`le*_to_cpu` pairs and
the `cpu_to_be64`/`be64_to_cpu` pair are mutually inverse on values of
their width, and decoding the encoding of any legal wire header yields the
header back. -/
theorem wire_encode_decode_roundtrip :
    (∀ x, x < 2 ^ 16 → le16_to_cpu (cpu_to_le16 x) = x) ∧
    (∀ x, x < 2 ^ 32 → le32_to_cpu (cpu_to_le32 x) = x) ∧
    (∀ x, x < 2 ^ 64 → le64_to_cpu (cpu_to_le64 x) = x) ∧
    (∀ x, x < 2 ^ 64 → be64_to_cpu (cpu_to_be64 x) = x) ∧
    (∀ h : WireHdr, legalHdr h → decodeHdr (encodeHdr h) = h) := by
  refine ⟨fun x _ => rfl, fun x _ => rfl, fun x _ => rfl,
    fun x hx => be64_roundtrip x hx, fun h _ => rfl⟩

/-- Witness for C7: round trips at concrete values and a concrete legal
header. -/
theorem wire_encode_decode_roundtrip_witness :
    le16_to_cpu (cpu_to_le16 4660) = 4660 ∧
    be64_to_cpu (cpu_to_be64 81985529216486895) = 81985529216486895 ∧
    decodeHdr (encodeHdr ⟨1, OP_PUT, 0, 0, 0, 9, 3232235521, 4000, 16, 3,
      4660, 8, 0, 0, 0, 1⟩) =
      ⟨1, OP_PUT, 0, 0, 0, 9, 3232235521, 4000, 16, 3, 4660, 8, 0, 0, 0, 1⟩ :=
  ⟨wire_encode_decode_roundtrip.1 4660 (by decide),
   wire_encode_decode_roundtrip.2.2.2.1 81985529216486895 (by norm_num),
   wire_encode_decode_roundtrip.2.2.2.2 _ (by decide)⟩

/-! ## PPE `ni_fini_impl`: teardown reads the zeroed NI -/

/-- C8: `ni_fini_impl` zeroes the NI structure (memset) before the
triggered-list teardown loop, so the loop-bound read of
`ni->limits->max_cts` observes the cleared (NULL) state rather than the
value held before the call, and all six subsequent frees
(`ni->ppe_md` through `ni->ppe_ct`) free the cleared NULL pointers rather
than the allocations held before the call. -/
theorem ni_fini_teardown_sees_cleared_ni (ni : PpeNI) (l a f : Nat)
    (hlim : ni.max_cts = some l) (hmd : ni.ppe_md = some a)
    (hct : ni.ppe_ct = some f) :
    (FiniEv.readMaxCts none ∈ ni_fini_impl ni ∧
      FiniEv.readMaxCts ni.max_cts ∉ ni_fini_impl ni) ∧
    (∀ w v, FiniEv.freePtr w v ∈ ni_fini_impl ni → v = none) ∧
    (FiniEv.freePtr 0 ni.ppe_md ∉ ni_fini_impl ni ∧
      FiniEv.freePtr 5 ni.ppe_ct ∉ ni_fini_impl ni) ∧
    (∃ pre post, ni_fini_impl ni =
      pre ++ FiniEv.memsetZero :: FiniEv.readMaxCts none :: post) := by
  rw [hlim, hmd, hct]
  unfold ni_fini_impl memsetNI
  refine ⟨⟨?_, ?_⟩, ?_, ⟨?_, ?_⟩, ?_⟩
  · split_ifs <;> simp
  · split_ifs <;> simp
  · intro w v hv
    split_ifs at hv <;> simp at hv <;> tauto
  · split_ifs <;> simp
  · split_ifs <;> simp
  · split_ifs
    · exact ⟨[FiniEv.detachLimits, FiniEv.detachClient], _, rfl⟩
    · exact ⟨[FiniEv.detachLimits], _, rfl⟩
    · exact ⟨[FiniEv.detachClient], _, rfl⟩
    · exact ⟨[], _, rfl⟩

/-- Witness for C8: a concrete NI with live limits and heap pointers. -/
theorem ni_fini_teardown_sees_cleared_ni_witness :
    FiniEv.readMaxCts none ∈
      ni_fini_impl ⟨some 1, some 2, some 3, some 4, some 5, some 6, some 7,
        some 8, some 9⟩ ∧
    FiniEv.freePtr 0 (some (4 : Nat)) ∉
      ni_fini_impl ⟨some 1, some 2, some 3, some 4, some 5, some 6, some 7,
        some 8, some 9⟩ :=
  ⟨(ni_fini_teardown_sees_cleared_ni
      ⟨some 1, some 2, some 3, some 4, some 5, some 6, some 7, some 8, some 9⟩
      3 4 9 rfl rfl rfl).1.1,
   (ni_fini_teardown_sees_cleared_ni
      ⟨some 1, some 2, some 3, some 4, some 5, some 6, some 7, some 8, some 9⟩
      3 4 9 rfl rfl rfl).2.2.1.1⟩

/-! ## PPE `ni_init_impl`: the completion entry always carries `PTL_OK` -/

/-- C9: `ni_init_impl` always acknowledges the client with retval
`PTL_OK`: even when pid reservation computes `PTL_NO_SPACE` (no free pid
for `PTL_PID_ANY`), `PTL_PID_IN_USE` (requested pid reserved elsewhere),
or `PTL_ARG_INVALID` (requested pid differs from the client's reserved
pid), the completion entry carries `PTL_OK`, so the client never observes
the computed error code. -/
theorem ni_init_ack_always_ok (ctx : PpeCtx) (client : PpeClient)
    (cmd : NiInitCmd) (env : NiInitEnv) :
    (ni_init_impl ctx client cmd env).ackRetval = PTL_OK ∧
    (cmd.pid = none → client.pid = none → findFreePid ctx = none →
      (ni_init_impl ctx client cmd env).computedRet = some PTL_NO_SPACE) ∧
    (∀ p, cmd.pid = some p → client.pid = none → (ctx.pids p).isSome →
      (ni_init_impl ctx client cmd env).computedRet = some PTL_PID_IN_USE) ∧
    (∀ p q, cmd.pid = some p → client.pid = some q → p ≠ q →
      (ni_init_impl ctx client cmd env).computedRet = some PTL_ARG_INVALID) := by
  refine ⟨?_, ?_, ?_, ?_⟩
  · unfold ni_init_impl
    rcases cmd with ⟨_ | p⟩ <;> rcases client with ⟨_ | q⟩ <;> simp
    · rcases hf : findFreePid ctx with _ | i <;> simp [hf] <;>
        split_ifs <;> rfl
    · split_ifs <;> rfl
    · rcases hp : ctx.pids p with _ | r <;> simp [hp] <;> split_ifs <;> rfl
    · split_ifs <;> rfl
  · intro hcmd hcl hfree
    unfold ni_init_impl
    rw [hcmd]
    simp only []
    rw [hcl]
    simp only []
    rw [hfree]
  · intro p hcmd hcl hres
    unfold ni_init_impl
    rw [hcmd]
    simp only []
    rw [hcl]
    simp only []
    obtain ⟨r, hr⟩ := Option.isSome_iff_exists.mp hres
    rw [if_neg (by simp [hr])]
  · intro p q hcmd hcl hne
    unfold ni_init_impl
    rw [hcmd]
    simp only []
    rw [hcl]
    simp only []
    rw [if_pos hne]

/-- Witness for C9: a client requesting pid 7 which another peer already
reserved is acknowledged with `PTL_OK` although `PTL_PID_IN_USE` was
computed. -/
theorem ni_init_ack_always_ok_witness :
    (ni_init_impl ⟨fun _ => some 0, 16⟩ ⟨none⟩ ⟨some 7⟩
      ⟨true, true⟩).ackRetval = PTL_OK ∧
    (ni_init_impl ⟨fun _ => some 0, 16⟩ ⟨none⟩ ⟨some 7⟩
      ⟨true, true⟩).computedRet = some PTL_PID_IN_USE :=
  ⟨(ni_init_ack_always_ok ⟨fun _ => some 0, 16⟩ ⟨none⟩ ⟨some 7⟩
      ⟨true, true⟩).1,
   (ni_init_ack_always_ok ⟨fun _ => some 0, 16⟩ ⟨none⟩ ⟨some 7⟩
      ⟨true, true⟩).2.2.1 7 rfl rfl rfl⟩

end Portals
